import Mathlib

/-!
# Verification of the Cosmic Dodge simulation core (src/html/game.js)

Shallow embedding of the game logic in `game.js`.  Numbers are modelled by `ℚ`
(the source computes with floating point; all constants involved are exact
decimals).  `Math.random()` draws are modelled as explicit inputs in `[0, 1)`,
packaged in a `Draws` record.  DOM sinks (`scoreEl.innerText`,
`finalScoreEl.innerText`, screen visibility classes) are modelled as fields of
the game state recording the last value written to them.

The circle-collision test `Math.hypot(dx, dy) < R` is embedded in its
equivalent decidable form `0 < R ∧ dx^2 + dy^2 < R^2` (for `R ≤ 0` the
square root, being nonnegative, can never be below `R`); the equivalence with
the real-valued Euclidean-distance comparison is proved as a theorem.
-/

namespace CosmicDodge

/-- A trail particle (`player.trail` element, game.js line 108). -/
structure Particle where
  x : ℚ
  y : ℚ
  radius : ℚ
  alpha : ℚ
deriving DecidableEq, Repr

/-- An asteroid (game.js lines 76-84). -/
structure Asteroid where
  x : ℚ
  y : ℚ
  size : ℚ
  speed : ℚ
  color : String
  rotation : ℚ
  rotSpeed : ℚ
deriving DecidableEq, Repr

/-- The player object (game.js lines 32-38). -/
structure Player where
  x : ℚ
  y : ℚ
  size : ℚ
  color : String
  trail : List Particle
deriving DecidableEq, Repr

/-- One batch of `Math.random()` results consumed by `spawnAsteroid`.
Each `u*` field models one `Math.random()` call, so a run of the source
corresponds to draws in `[0, 1)`.  `rot` models the already-scaled product
`Math.random() * Math.PI` directly (π is irrational, hence not in `ℚ`);
no claim constrains it. -/
structure Draws where
  uSize : ℚ
  uX : ℚ
  uSpeed : ℚ
  uColor : ℚ
  rot : ℚ
  uRotSpeed : ℚ
deriving DecidableEq, Repr

/-- The session state machine of the spec (§4.4): `Running` is
`gameActive = true`; with the game inactive, `Ended` is the game-over screen
being shown and `Idle` is the initial/start screen. -/
inductive SessionState where
  | Idle : SessionState
  | Running : SessionState
  | Ended : SessionState
deriving DecidableEq, Repr

/-- The mutable state of the IIFE in game.js (lines 21-46), together with the
DOM sinks the core writes to: `scoreDisplay` mirrors `scoreEl.innerText`,
`finalScoreDisplay` mirrors `finalScoreEl.innerText` (`none` before any
write), and `gameOverShown` mirrors the game-over screen's visibility. -/
structure GameState where
  score : ℕ
  gameActive : Bool
  frameCount : ℕ
  width : ℚ
  height : ℚ
  player : Player
  asteroids : List Asteroid
  mouseX : ℚ
  mouseY : ℚ
  scoreDisplay : ℕ
  finalScoreDisplay : Option ℕ
  gameOverShown : Bool
deriving DecidableEq, Repr

/-- `asteroidColors` (game.js line 42). -/
def asteroidColors : List String := ["#F080F0", "#FFD700", "#aaaaaa", "#ff5555"]

/-- `spawnAsteroid` (game.js lines 70-85), with the global `score` and `width`
reads and the `Math.random()` calls made explicit parameters. -/
def spawnAsteroid (score : ℕ) (width : ℚ) (d : Draws) : Asteroid :=
  { x := d.uX * (width - (d.uSize * 25 + 10))
    y := -(d.uSize * 25 + 10)
    size := d.uSize * 25 + 10
    speed := d.uSpeed * 3 + 2 + (score : ℚ) * (5 / 1000)
    color := asteroidColors.getD (d.uColor * 4).floor.toNat "#F080F0"
    rotation := d.rot
    rotSpeed := (d.uRotSpeed - 1 / 2) * (1 / 10) }

/-- The `spawnRate` computation (game.js lines 120-123): a cascade of
reassignments driven by the current score. -/
def spawnRate (score : ℕ) : ℕ :=
  if 2000 < score then 15
  else if 1000 < score then 25
  else if 500 < score then 35
  else 45

/-- The spawn decision and push (game.js lines 125-127). -/
def spawnStep (score frameCount : ℕ) (width : ℚ) (as : List Asteroid)
    (d : Draws) : List Asteroid :=
  if frameCount % spawnRate score = 0 then as ++ [spawnAsteroid score width d]
  else as

/-- One axis of the player boundary check (game.js lines 101-104): two
sequential `if` statements, the second testing the possibly updated value. -/
def clampCoord (v r limit : ℚ) : ℚ :=
  if (if v < r then r else v) > limit - r then limit - r
  else if v < r then r else v

/-- The lerp toward the mouse (game.js lines 95-98) followed by the boundary
checks (lines 101-104); returns the player position after the clamping step. -/
def movePlayer (s : GameState) : ℚ × ℚ :=
  (clampCoord (s.player.x + (s.mouseX - s.player.x) * (15 / 100)) s.player.size s.width,
   clampCoord (s.player.y + (s.mouseY - s.player.y) * (15 / 100)) s.player.size s.height)

/-- Ageing of one trail particle (game.js lines 114-115). -/
def ageParticle (p : Particle) : Particle :=
  { p with y := p.y + 2, alpha := p.alpha - 1 / 20 }

/-- The trail-ageing loop (game.js lines 112-117): every particle moves down
and fades; those whose alpha drops to `≤ 0` are spliced out.  The backward
loop with independent per-element splices is order-preserving filtering. -/
def ageTrail (trail : List Particle) : List Particle :=
  (trail.map ageParticle).filter fun p => decide (0 < p.alpha)

/-- Trail creation every 3rd frame (game.js lines 107-109) followed by the
ageing loop (lines 112-117); `px, py` is the post-clamp player position. -/
def trailStep (frameCount : ℕ) (px py psize : ℚ) (trail : List Particle) :
    List Particle :=
  ageTrail (if frameCount % 3 = 0
    then trail ++ [{ x := px, y := py + 15, radius := psize / 2, alpha := 1 }]
    else trail)

/-- The per-asteroid motion (game.js lines 132-133). -/
def stepAst (a : Asteroid) : Asteroid :=
  { a with y := a.y + a.speed, rotation := a.rotation + a.rotSpeed }

/-- The off-screen test (game.js line 136). -/
def offscreen (h : ℚ) (a : Asteroid) : Bool :=
  decide (a.y > h + a.size)

/-- The circle collision test (game.js lines 142-145):
`Math.hypot(px - a.x, py - a.y) < psize + a.size - 5`, in the equivalent
squared form (see the file header). -/
def collidesB (px py psize : ℚ) (a : Asteroid) : Bool :=
  decide (0 < psize + a.size - 5 ∧
    (px - a.x) ^ 2 + (py - a.y) ^ 2 < (psize + a.size - 5) ^ 2)

/-- The body of the asteroid loop (game.js lines 130-149) on the iteration
order as a list: the head is processed first (moved; removed if off-screen;
else collision-tested, a hit aborting the loop with the remaining elements
untouched).  Returns the resulting list segment and the collision flag. -/
def procList (px py psize h : ℚ) : List Asteroid → List Asteroid × Bool
  | [] => ([], false)
  | a :: rest =>
    if offscreen h (stepAst a) then procList px py psize h rest
    else if collidesB px py psize (stepAst a) then (stepAst a :: rest, true)
    else
      let r := procList px py psize h rest
      (stepAst a :: r.1, r.2)

/-- The asteroid loop of game.js lines 130-149.  The source iterates the
array from index `length - 1` down to `0`, i.e. newest asteroid first, so the
loop body runs over the reversed list; the result is reversed back to array
order. -/
def processAsteroids (px py psize h : ℚ) (as : List Asteroid) :
    List Asteroid × Bool :=
  ((procList px py psize h as.reverse).1.reverse,
   (procList px py psize h as.reverse).2)

/-- Modelled from the spec: the same per-asteroid processing, but iterating
in insertion order (oldest asteroid first), as §4.2's tie-break policy
describes.  Stated only to compare with `processAsteroids`, which follows
the source. -/
def processAsteroidsInsertionOrder (px py psize h : ℚ) (as : List Asteroid) :
    List Asteroid × Bool :=
  procList px py psize h as

/-- The full per-tick asteroid pipeline: spawn decision (game.js lines
119-127, using the already incremented score) then the update/removal/
collision loop (lines 130-149), against the post-clamp player position. -/
def tickAsteroids (s : GameState) (d : Draws) : List Asteroid × Bool :=
  processAsteroids (movePlayer s).1 (movePlayer s).2 s.player.size s.height
    (spawnStep (s.score + 1) s.frameCount s.width s.asteroids d)

/-- `endGame` (game.js lines 236-242): deactivate, publish the final score,
show the game-over screen. -/
def endGame (s : GameState) : GameState :=
  { s with gameActive := false
           finalScoreDisplay := some (s.score / 10)
           gameOverShown := true }

/-- `update` (game.js lines 87-152), one simulation tick.  A no-op when the
game is inactive (line 88).  Otherwise: score increment and display write
(91-92), player lerp and clamp (95-104), trail creation and ageing (107-117),
spawn decision (119-127), asteroid loop (130-149) — a collision calls
`endGame` and returns before the `frameCount` increment of line 151. -/
def update (s : GameState) (d : Draws) : GameState :=
  if s.gameActive then
    if (tickAsteroids s d).2 then
      endGame
        { s with
          score := s.score + 1
          scoreDisplay := (s.score + 1) / 10
          player := { s.player with
            x := (movePlayer s).1
            y := (movePlayer s).2
            trail := trailStep s.frameCount (movePlayer s).1 (movePlayer s).2
              s.player.size s.player.trail }
          asteroids := (tickAsteroids s d).1 }
    else
      { s with
        score := s.score + 1
        scoreDisplay := (s.score + 1) / 10
        player := { s.player with
          x := (movePlayer s).1
          y := (movePlayer s).2
          trail := trailStep s.frameCount (movePlayer s).1 (movePlayer s).2
            s.player.size s.player.trail }
        asteroids := (tickAsteroids s d).1
        frameCount := s.frameCount + 1 }
  else s

/-- `resizeGame` (game.js lines 50-66), with the viewport dimensions
(`window.innerWidth/innerHeight`) as explicit inputs. -/
def resizeGame (s : GameState) (innerW innerH : ℚ) : GameState :=
  if s.gameActive then
    { s with width := min 800 (innerW * (95 / 100))
             height := min 600 (innerH * (8 / 10)) }
  else
    { s with width := min 800 (innerW * (95 / 100))
             height := min 600 (innerH * (8 / 10))
             player := { s.player with
               x := min 800 (innerW * (95 / 100)) / 2
               y := min 600 (innerH * (8 / 10)) - 100 } }

/-- `startGame` (game.js lines 215-234): reset the counters and collections,
recompute the surface size, place the player and the mouse target at
`(width / 2, height - 100)`, reset the score display, hide both screens,
and activate. -/
def startGame (s : GameState) (innerW innerH : ℚ) : GameState :=
  let s1 := resizeGame
    { s with score := 0, frameCount := 0, asteroids := []
             player := { s.player with trail := [] } } innerW innerH
  { s1 with
    player := { s1.player with x := s1.width / 2, y := s1.height - 100 }
    mouseX := s1.width / 2
    mouseY := s1.height - 100
    scoreDisplay := 0
    gameOverShown := false
    gameActive := true }

/-- The spec's session state (§4.4) read off the embedded flags. -/
def sessionState (s : GameState) : SessionState :=
  if s.gameActive then SessionState.Running
  else if s.gameOverShown then SessionState.Ended
  else SessionState.Idle

/-- Presence flags for the DOM elements looked up at the top of the IIFE
(game.js lines 7-17): `true` means `document.getElementById` found the
element. -/
structure Elements where
  modal : Bool
  startBtn : Bool
  closeBtn : Bool
  canvas : Bool
  scoreEl : Bool
  finalScoreEl : Bool
  startScreen : Bool
  gameOverScreen : Bool
  playBtn : Bool
  restartBtn : Bool
deriving DecidableEq, Repr

/-- Outcome of running the IIFE body: `inactive` is the early `return` of
line 19 (no listeners attached, no game state created); `faulted ls` is a
TypeError thrown partway through listener wiring with the listeners `ls`
already attached; `active ls` is a complete initialization with listeners
`ls` attached. -/
inductive InitOutcome where
  | inactive : InitOutcome
  | faulted : List String → InitOutcome
  | active : List String → InitOutcome
deriving DecidableEq, Repr

/-- The IIFE body (game.js lines 5-291) as seen at initialization time:
the guard of line 19 checks only `canvas` and `modal`; the `startBtn` and
`closeBtn` listeners are individually null-guarded (lines 247, 258); the
canvas listeners (lines 272-284) follow; `playBtn.addEventListener`
(line 286) and `restartBtn.addEventListener` (line 287) are unguarded, so a
missing element there throws after the earlier listeners were attached;
line 289 attaches the resize listener. -/
def initCore (e : Elements) : InitOutcome :=
  if !e.canvas || !e.modal then InitOutcome.inactive
  else
    let ls := (if e.startBtn then ["startBtn.click"] else []) ++
      (if e.closeBtn then ["closeBtn.click"] else []) ++
      ["canvas.mousemove", "canvas.touchmove"]
    if !e.playBtn then InitOutcome.faulted ls
    else if !e.restartBtn then InitOutcome.faulted (ls ++ ["playBtn.click"])
    else InitOutcome.active
      (ls ++ ["playBtn.click", "restartBtn.click", "window.resize"])

/-- The elements the core dereferences unconditionally at some point of its
life: `canvas`/`modal` at the line-19 guard, `playBtn`/`restartBtn` at
listener wiring (lines 286-287), `scoreEl` in `update` (line 92),
`finalScoreEl` in `endGame` (line 239), `startScreen`/`gameOverScreen` in
`startGame`/`endGame` (lines 228-229, 240-241).  `startBtn` and `closeBtn`
are individually guarded, hence optional. -/
def requiredPresent (e : Elements) : Prop :=
  e.modal = true ∧ e.canvas = true ∧ e.scoreEl = true ∧ e.finalScoreEl = true ∧
  e.startScreen = true ∧ e.gameOverScreen = true ∧ e.playBtn = true ∧
  e.restartBtn = true

instance (e : Elements) : Decidable (requiredPresent e) := by
  unfold requiredPresent; infer_instance

/-- A running state on the full 800×600 surface, player resting at the
mouse target, no asteroids; `frameCount = 1` so the tick neither creates a
trail particle nor spawns an asteroid. -/
def demoState : GameState :=
  { score := 0, gameActive := true, frameCount := 1, width := 800, height := 600
    player := { x := 400, y := 500, size := 20, color := "#4D4FFF", trail := [] }
    asteroids := [], mouseX := 400, mouseY := 500
    scoreDisplay := 0, finalScoreDisplay := none, gameOverShown := false }

/-- `demoState` with one asteroid that, after moving this tick, sits exactly
on the player (distance 0). -/
def collState : GameState :=
  { demoState with asteroids :=
      [{ x := 400, y := 495, size := 20, speed := 5, color := "#aaaaaa"
         rotation := 0, rotSpeed := 0 }] }

/-- A running state on a degenerate 10-wide surface (the source allows any
viewport, and `width = min 800 (innerWidth * 0.95)` can be below the player
diameter 40). -/
def narrowState : GameState :=
  { score := 0, gameActive := true, frameCount := 1, width := 10, height := 600
    player := { x := 0, y := 300, size := 20, color := "#4D4FFF", trail := [] }
    asteroids := [], mouseX := 0, mouseY := 300
    scoreDisplay := 0, finalScoreDisplay := none, gameOverShown := false }

/-- The all-zero draw batch (each `Math.random()` returning 0). -/
def zeroDraws : Draws :=
  { uSize := 0, uX := 0, uSpeed := 0, uColor := 0, rot := 0, uRotSpeed := 0 }

/-- An older asteroid that collides with a player at the origin (radius 20)
after moving this tick: it steps to `(0, 0)`, distance 0 < 35. -/
def astA : Asteroid :=
  { x := 0, y := -5, size := 20, speed := 5, color := "#F080F0"
    rotation := 0, rotSpeed := 0 }

/-- A far-away asteroid that neither collides nor leaves a 600-high surface
this tick: it steps from `(100, 0)` to `(100, 1)`. -/
def astB : Asteroid :=
  { x := 100, y := 0, size := 10, speed := 1, color := "#FFD700"
    rotation := 0, rotSpeed := 0 }

/-- A DOM configuration with every element present except the play button
(`play-btn`). -/
def elemsNoPlay : Elements :=
  { modal := true, startBtn := true, closeBtn := true, canvas := true
    scoreEl := true, finalScoreEl := true, startScreen := true
    gameOverScreen := true, playBtn := false, restartBtn := true }

/-- A DOM configuration with every element present except the score display
(`game-score`). -/
def elemsNoScore : Elements :=
  { modal := true, startBtn := true, closeBtn := true, canvas := true
    scoreEl := false, finalScoreEl := true, startScreen := true
    gameOverScreen := true, playBtn := true, restartBtn := true }

/-! ## Helper lemmas -/

/-- The collision flag of the asteroid loop is the disjunction, over the
processed segment, of "moved, on-screen, and overlapping the player". -/
theorem procList_flag_any (px py psize h : ℚ) : ∀ as : List Asteroid,
    (procList px py psize h as).2 =
      as.any fun a => !offscreen h (stepAst a) && collidesB px py psize (stepAst a) := by
  intro as
  induction as with
  | nil => rfl
  | cons a rest ih =>
    cases hoff : offscreen h (stepAst a) <;>
      cases hcol : collidesB px py psize (stepAst a) <;>
        simp [procList, hoff, hcol, ih]

/-- Existential form of the collision flag, at the level of the whole
asteroid-loop embedding. -/
theorem processAsteroids_flag_iff (px py psize h : ℚ) (as : List Asteroid) :
    (processAsteroids px py psize h as).2 = true ↔
      ∃ a ∈ as, offscreen h (stepAst a) = false ∧
        collidesB px py psize (stepAst a) = true := by
  simp [processAsteroids, procList_flag_any, List.any_eq_true, Bool.and_eq_true,
    Bool.not_eq_true']

/-- Both branches of a running tick set the player position to the output of
the lerp-and-clamp stage. -/
theorem update_player_pos (s : GameState) (d : Draws) (hact : s.gameActive = true) :
    (update s d).player.x = (movePlayer s).1 ∧
    (update s d).player.y = (movePlayer s).2 := by
  simp only [update, hact, if_true]
  split <;> simp [endGame]

/-- Both branches of a running tick set the asteroid list to the output of
the asteroid loop. -/
theorem update_asteroids_eq (s : GameState) (d : Draws) (hact : s.gameActive = true) :
    (update s d).asteroids = (tickAsteroids s d).1 := by
  simp only [update, hact, if_true]
  split <;> simp [endGame]

/-- The two sequential boundary checks keep the coordinate inside
`[r, limit - r]` whenever the playable rectangle is nonempty. -/
theorem clampCoord_bounds (v r limit : ℚ) (hr : 2 * r ≤ limit) :
    r ≤ clampCoord v r limit ∧ clampCoord v r limit ≤ limit - r := by
  unfold clampCoord
  split_ifs <;> constructor <;> linarith

/-- The fields of the state produced by `startGame`. -/
theorem startGame_fields (s : GameState) (iw ihh : ℚ) :
    (startGame s iw ihh).score = 0 ∧
    (startGame s iw ihh).frameCount = 0 ∧
    (startGame s iw ihh).asteroids = [] ∧
    (startGame s iw ihh).player.trail = [] ∧
    (startGame s iw ihh).gameActive = true ∧
    (startGame s iw ihh).width = min 800 (iw * (95 / 100)) ∧
    (startGame s iw ihh).height = min 600 (ihh * (8 / 10)) ∧
    (startGame s iw ihh).player.x = min 800 (iw * (95 / 100)) / 2 ∧
    (startGame s iw ihh).player.y = min 600 (ihh * (8 / 10)) - 100 ∧
    (startGame s iw ihh).mouseX = min 800 (iw * (95 / 100)) / 2 ∧
    (startGame s iw ihh).mouseY = min 600 (ihh * (8 / 10)) - 100 ∧
    (startGame s iw ihh).player.size = s.player.size ∧
    (startGame s iw ihh).gameOverShown = false := by
  simp only [startGame, resizeGame]
  split <;> simp

/-- Alpha of a particle after `k` ageing steps. -/
theorem ageParticle_iterate_alpha (p : Particle) : ∀ k : ℕ,
    (ageParticle^[k] p).alpha = p.alpha - (k : ℚ) * (1 / 20) := by
  intro k
  induction k with
  | zero => simp
  | succ n ihn =>
    rw [Function.iterate_succ_apply']
    simp only [ageParticle, ihn]
    push_cast
    ring

/-- If every element of the leading segment is off-screen or non-colliding
after moving, and `c` then collides, the loop moves-and-filters the leading
segment, stops at `c`, and leaves the tail untouched. -/
theorem procList_collide_split (px py psize h : ℚ) (c : Asteroid) :
    ∀ l rest : List Asteroid,
      (∀ b ∈ l, offscreen h (stepAst b) = true ∨
        collidesB px py psize (stepAst b) = false) →
      offscreen h (stepAst c) = false →
      collidesB px py psize (stepAst c) = true →
      procList px py psize h (l ++ c :: rest) =
        ((l.map stepAst).filter (fun b => !offscreen h b) ++ stepAst c :: rest,
         true) := by
  intro l
  induction l with
  | nil =>
    intro rest _ hoff hcol
    simp [procList, hoff, hcol]
  | cons b l ih =>
    intro rest hsafe hoff hcol
    have hrec := ih rest (fun x hx => hsafe x (List.mem_cons_of_mem _ hx)) hoff hcol
    cases hb : offscreen h (stepAst b) with
    | true => simp [procList, hb, hrec]
    | false =>
      have hbc : collidesB px py psize (stepAst b) = false := by
        rcases hsafe b (List.mem_cons_self b l) with h1 | h1
        · rw [hb] at h1; cases h1
        · exact h1
      simp [procList, hb, hbc, hrec]

/-! ## Claim theorems -/

/-- **C1**: On a running tick, the session transitions to `Ended` exactly
when some asteroid remaining after off-screen removal has Euclidean distance
to the player center strictly below `playerRadius + asteroidSize - 5`, and
the remaining per-tick processing — including the `frameCount` increment —
is then aborted.  With player radius 20 and asteroid radius 20, distance 0
collides (`0 < 35`) and distance 36 does not (`36 ≥ 35`). -/
theorem collision_ends_session :
    (∀ (px py psize h : ℚ) (as : List Asteroid),
      (processAsteroids px py psize h as).2 = true ↔
        ∃ a ∈ as, offscreen h (stepAst a) = false ∧
          collidesB px py psize (stepAst a) = true) ∧
    (∀ (px py psize : ℚ) (a : Asteroid),
      collidesB px py psize a = true ↔
        Real.sqrt (((px : ℝ) - (a.x : ℝ)) ^ 2 + ((py : ℝ) - (a.y : ℝ)) ^ 2) <
          (psize : ℝ) + (a.size : ℝ) - 5) ∧
    (∀ (s : GameState) (d : Draws), s.gameActive = true →
      ((tickAsteroids s d).2 = true →
        sessionState (update s d) = SessionState.Ended ∧
        (update s d).frameCount = s.frameCount) ∧
      ((tickAsteroids s d).2 = false →
        sessionState (update s d) = SessionState.Running ∧
        (update s d).frameCount = s.frameCount + 1)) ∧
    collidesB 0 0 20
      { x := 0, y := 0, size := 20, speed := 0, color := "", rotation := 0
        rotSpeed := 0 } = true ∧
    collidesB 0 0 20
      { x := 36, y := 0, size := 20, speed := 0, color := "", rotation := 0
        rotSpeed := 0 } = false := by
  refine ⟨processAsteroids_flag_iff, ?_, ?_, ?_, ?_⟩
  · intro px py psize a
    unfold collidesB
    rw [decide_eq_true_eq]
    constructor
    · rintro ⟨hR, hD⟩
      have hR' : (0 : ℝ) < (psize : ℝ) + (a.size : ℝ) - 5 := by exact_mod_cast hR
      rw [Real.sqrt_lt' hR']
      exact_mod_cast hD
    · intro hlt
      have hR' : (0 : ℝ) < (psize : ℝ) + (a.size : ℝ) - 5 :=
        lt_of_le_of_lt (Real.sqrt_nonneg _) hlt
      have hR : 0 < psize + a.size - 5 := by exact_mod_cast hR'
      refine ⟨hR, ?_⟩
      rw [Real.sqrt_lt' hR'] at hlt
      exact_mod_cast hlt
  · intro s d hact
    constructor
    · intro hcol
      simp [update, hact, hcol, endGame, sessionState]
    · intro hcol
      simp [update, hact, hcol, sessionState]
  · norm_num [collidesB]
  · norm_num [collidesB]

/-- Witness for C1: in `collState` the asteroid steps onto the player, the
collision flag fires, the session ends, and `frameCount` stays at 1. -/
theorem collision_ends_session_witness :
    collState.gameActive = true ∧
    (tickAsteroids collState zeroDraws).2 = true ∧
    sessionState (update collState zeroDraws) = SessionState.Ended ∧
    (update collState zeroDraws).frameCount = collState.frameCount := by
  have hact : collState.gameActive = true := rfl
  have hflag : (tickAsteroids collState zeroDraws).2 = true := by
    norm_num [tickAsteroids, movePlayer, clampCoord, spawnStep, spawnRate,
      processAsteroids, procList, collState, demoState, zeroDraws, stepAst,
      offscreen, collidesB]
  have h := (collision_ends_session.2.2.1 collState zeroDraws hact).1 hflag
  exact ⟨hact, hflag, h.1, h.2⟩

/-- **C3**: every running tick increments the score by exactly 1 and writes
`floor(score / 10)` to the score display sink; the score never decreases. -/
theorem score_increments_per_tick :
    (∀ (s : GameState) (d : Draws), s.gameActive = true →
      (update s d).score = s.score + 1 ∧
      (update s d).scoreDisplay = (s.score + 1) / 10) ∧
    ∀ (s : GameState) (d : Draws), s.score ≤ (update s d).score := by
  constructor
  · intro s d hact
    simp only [update, hact, if_true]
    split <;> simp [endGame]
  · intro s d
    by_cases hact : s.gameActive = true
    · simp only [update, hact, if_true]
      split <;> simp [endGame]
    · simp [update, hact]

/-- Witness for C3 at `demoState`. -/
theorem score_increments_per_tick_witness :
    demoState.gameActive = true ∧
    (update demoState zeroDraws).score = demoState.score + 1 ∧
    (update demoState zeroDraws).scoreDisplay = (demoState.score + 1) / 10 :=
  ⟨rfl, (score_increments_per_tick.1 demoState zeroDraws rfl).1,
    (score_increments_per_tick.1 demoState zeroDraws rfl).2⟩

/-- **C4**: the spawn interval is 45 ticks for `score ≤ 500`, 35 for
`500 < score ≤ 1000`, 25 for `1000 < score ≤ 2000`, 15 beyond — in
particular 45, 35, 25 at the boundary scores 500, 1000, 2000 — and the
spawner is invoked exactly when `frameCount % spawnInterval = 0`. -/
theorem spawn_interval_step_function :
    (∀ n : ℕ, n ≤ 500 → spawnRate n = 45) ∧
    (∀ n : ℕ, 500 < n → n ≤ 1000 → spawnRate n = 35) ∧
    (∀ n : ℕ, 1000 < n → n ≤ 2000 → spawnRate n = 25) ∧
    (∀ n : ℕ, 2000 < n → spawnRate n = 15) ∧
    spawnRate 500 = 45 ∧ spawnRate 1000 = 35 ∧ spawnRate 2000 = 25 ∧
    ∀ (score fc : ℕ) (w : ℚ) (as : List Asteroid) (d : Draws),
      (fc % spawnRate score = 0 →
        spawnStep score fc w as d = as ++ [spawnAsteroid score w d]) ∧
      (fc % spawnRate score ≠ 0 → spawnStep score fc w as d = as) := by
  refine ⟨?_, ?_, ?_, ?_, rfl, rfl, rfl, ?_⟩
  · intro n hn; unfold spawnRate; split_ifs <;> omega
  · intro n hn hn'; unfold spawnRate; split_ifs <;> omega
  · intro n hn hn'; unfold spawnRate; split_ifs <;> omega
  · intro n hn; unfold spawnRate; split_ifs <;> omega
  · intro score fc w as d
    exact ⟨fun hfc => by simp [spawnStep, hfc], fun hfc => by simp [spawnStep, hfc]⟩

/-- Witness for C4: a score deep in each of the two outermost tiers. -/
theorem spawn_interval_step_function_witness :
    spawnRate 0 = 45 ∧ spawnRate 2500 = 15 ∧
    spawnStep 0 0 800 [] zeroDraws = [spawnAsteroid 0 800 zeroDraws] :=
  ⟨spawn_interval_step_function.1 0 (by omega),
    spawn_interval_step_function.2.2.2.1 2500 (by omega),
    (spawn_interval_step_function.2.2.2.2.2.2.2 0 0 800 [] zeroDraws).1 (by decide)⟩

/-- **C2** (amended): the claim holds on every running tick whose surface
admits the player disc, i.e. `2·radius ≤ width` and `2·radius ≤ height`:
the player position after the clamping step then satisfies
`radius ≤ x ≤ width - radius` and `radius ≤ y ≤ height - radius`.  (On a
smaller surface the two sequential clamps leave the coordinate at
`width - radius < radius`, see the counterexample.) -/
theorem player_clamped_in_bounds :
    (∀ v r limit : ℚ, 2 * r ≤ limit →
      r ≤ clampCoord v r limit ∧ clampCoord v r limit ≤ limit - r) ∧
    ∀ (s : GameState) (d : Draws), s.gameActive = true →
      2 * s.player.size ≤ s.width → 2 * s.player.size ≤ s.height →
      (s.player.size ≤ (update s d).player.x ∧
        (update s d).player.x ≤ s.width - s.player.size) ∧
      (s.player.size ≤ (update s d).player.y ∧
        (update s d).player.y ≤ s.height - s.player.size) := by
  constructor
  · exact clampCoord_bounds
  · intro s d hact hw hh
    obtain ⟨hx, hy⟩ := update_player_pos s d hact
    rw [hx, hy]
    exact ⟨clampCoord_bounds _ _ _ hw, clampCoord_bounds _ _ _ hh⟩

/-- Witness for C2 at `demoState` (800×600 surface, radius 20). -/
theorem player_clamped_in_bounds_witness :
    demoState.gameActive = true ∧
    2 * demoState.player.size ≤ demoState.width ∧
    2 * demoState.player.size ≤ demoState.height ∧
    (demoState.player.size ≤ (update demoState zeroDraws).player.x ∧
      (update demoState zeroDraws).player.x ≤
        demoState.width - demoState.player.size) ∧
    (demoState.player.size ≤ (update demoState zeroDraws).player.y ∧
      (update demoState zeroDraws).player.y ≤
        demoState.height - demoState.player.size) := by
  have h := player_clamped_in_bounds.2 demoState zeroDraws rfl
    (by norm_num [demoState]) (by norm_num [demoState])
  exact ⟨rfl, by norm_num [demoState], by norm_num [demoState], h.1, h.2⟩

/-- **C2** counterexample: on a surface of width 10 (degenerate but
producible, since `width = min 800 (0.95 · innerWidth)` follows the
viewport), the running tick from `narrowState` leaves the player at
`x = width - radius = -10 < radius = 20`: the claimed invariant
`radius ≤ x` fails. -/
theorem player_clamp_counterexample :
    narrowState.gameActive = true ∧
    ¬ (narrowState.player.size ≤ (update narrowState zeroDraws).player.x) := by
  refine ⟨rfl, ?_⟩
  norm_num [update, tickAsteroids, movePlayer, clampCoord, spawnStep, spawnRate,
    processAsteroids, procList, narrowState, zeroDraws, trailStep, ageTrail,
    endGame]

/-- **C5** (amended): the claim holds for every score, draw batch in
`[0, 1)`, and surface width of at least 35 (so that the spawned size never
exceeds the width): the asteroid has size in `[10, 35)`, `x` in
`[0, width - size)`, `y = -size`, and speed `u + score · 0.005` for some
`u ∈ [2, 5)`.  (For `width < size` the interval `[0, width - size)` is
empty while the produced `x` still exists, see the counterexample.) -/
theorem spawn_asteroid_ranges :
    ∀ (score : ℕ) (width : ℚ) (d : Draws),
      0 ≤ d.uSize → d.uSize < 1 → 0 ≤ d.uX → d.uX < 1 →
      0 ≤ d.uSpeed → d.uSpeed < 1 → 35 ≤ width →
      (10 ≤ (spawnAsteroid score width d).size ∧
        (spawnAsteroid score width d).size < 35) ∧
      (0 ≤ (spawnAsteroid score width d).x ∧
        (spawnAsteroid score width d).x <
          width - (spawnAsteroid score width d).size) ∧
      (spawnAsteroid score width d).y = -(spawnAsteroid score width d).size ∧
      ∃ u : ℚ, 2 ≤ u ∧ u < 5 ∧
        (spawnAsteroid score width d).speed = u + (score : ℚ) * (5 / 1000) := by
  intro score width d h1 h2 h3 h4 h5 h6 h7
  have hpos : (0 : ℚ) < width - (d.uSize * 25 + 10) := by nlinarith
  simp only [spawnAsteroid]
  refine ⟨⟨by nlinarith, by nlinarith⟩,
    ⟨mul_nonneg h3 (le_of_lt hpos), ?_⟩, by trivial,
    d.uSpeed * 3 + 2, by nlinarith, by nlinarith, by trivial⟩
  nlinarith [mul_lt_mul_of_pos_right h4 hpos]

/-- Witness for C5 at score 0, width 800, all draws 0. -/
theorem spawn_asteroid_ranges_witness :
    (10 ≤ (spawnAsteroid 0 800 zeroDraws).size ∧
      (spawnAsteroid 0 800 zeroDraws).size < 35) ∧
    (0 ≤ (spawnAsteroid 0 800 zeroDraws).x ∧
      (spawnAsteroid 0 800 zeroDraws).x <
        800 - (spawnAsteroid 0 800 zeroDraws).size) ∧
    (spawnAsteroid 0 800 zeroDraws).y = -(spawnAsteroid 0 800 zeroDraws).size ∧
    ∃ u : ℚ, 2 ≤ u ∧ u < 5 ∧
      (spawnAsteroid 0 800 zeroDraws).speed = u + ((0 : ℕ) : ℚ) * (5 / 1000) :=
  spawn_asteroid_ranges 0 800 zeroDraws (by norm_num [zeroDraws])
    (by norm_num [zeroDraws]) (by norm_num [zeroDraws]) (by norm_num [zeroDraws])
    (by norm_num [zeroDraws]) (by norm_num [zeroDraws]) (by norm_num)

/-- **C5** counterexample: with surface width 5 and all draws 0 (each a
legitimate `Math.random()` value in `[0, 1)`), the spawned asteroid has
`size = 10` and `x = 0`, but the claimed interval
`[0, width - size) = [0, -5)` is empty: `x < width - size` fails. -/
theorem spawn_asteroid_counterexample :
    (0 : ℚ) ≤ zeroDraws.uSize ∧ zeroDraws.uSize < 1 ∧
    (0 : ℚ) ≤ zeroDraws.uX ∧ zeroDraws.uX < 1 ∧
    ¬ ((0 : ℚ) ≤ (spawnAsteroid 0 5 zeroDraws).x ∧
      (spawnAsteroid 0 5 zeroDraws).x < 5 - (spawnAsteroid 0 5 zeroDraws).size) := by
  norm_num [spawnAsteroid, zeroDraws]

/-- **C6** (amended): within a tick the collision check proceeds in
*reverse* insertion order — newest asteroid first — and the first collision
found in that order ends the session: asteroids older than the colliding
one are left unprocessed for that tick, while the newer ones have already
been moved and off-screen-filtered. -/
theorem collision_order_newest_first :
    ∀ (px py psize h : ℚ) (pre post : List Asteroid) (c : Asteroid),
      (∀ b ∈ post, offscreen h (stepAst b) = true ∨
        collidesB px py psize (stepAst b) = false) →
      offscreen h (stepAst c) = false →
      collidesB px py psize (stepAst c) = true →
      processAsteroids px py psize h (pre ++ c :: post) =
        (pre ++ stepAst c ::
          (post.map stepAst).filter (fun b => !offscreen h b), true) := by
  intro px py psize h pre post c hsafe hoff hcol
  have hrev : (pre ++ c :: post).reverse = post.reverse ++ c :: pre.reverse := by
    simp [List.reverse_append]
  have hsafe' : ∀ b ∈ post.reverse, offscreen h (stepAst b) = true ∨
      collidesB px py psize (stepAst b) = false :=
    fun b hb => hsafe b (List.mem_reverse.mp hb)
  have key := procList_collide_split px py psize h c post.reverse pre.reverse
    hsafe' hoff hcol
  unfold processAsteroids
  rw [hrev, key]
  simp [List.map_reverse, List.filter_reverse, List.reverse_append]

/-- Witness for C6: the loop on `[astB, astA, astB]` stops at the colliding
`astA`, having moved only the newer copy of `astB`. -/
theorem collision_order_newest_first_witness :
    processAsteroids 0 0 20 600 ([astB] ++ astA :: [astB]) =
      ([astB] ++ stepAst astA ::
        ([astB].map stepAst).filter (fun b => !offscreen 600 b), true) := by
  apply collision_order_newest_first
  · intro b hb
    right
    rw [List.mem_singleton.mp hb]
    norm_num [collidesB, stepAst, astB]
  · norm_num [offscreen, stepAst, astA]
  · norm_num [collidesB, stepAst, astA]

/-- **C6** counterexample: starting from `[astA, astB]` with the older
`astA` colliding and the newer `astB` safe, the source loop (newest first)
moves `astB` and then ends at `astA`, while insertion-order (oldest-first)
processing stops at `astA` with `astB` unmoved: the resulting asteroid
arrays differ, so the collision check does not proceed in insertion
order. -/
theorem collision_order_counterexample :
    processAsteroids 0 0 20 600 [astA, astB] ≠
      processAsteroidsInsertionOrder 0 0 20 600 [astA, astB] := by
  norm_num [processAsteroids, processAsteroidsInsertionOrder, procList, astA,
    astB, stepAst, offscreen, collidesB, Asteroid.mk.injEq, Prod.ext_iff]

/-- **C7**: the start/restart operation resets score, frame count, asteroid
set and trail, and places both the player and the input target at
`(width / 2, height - 100)` — the bottom-center marker — of the freshly
recomputed surface; the session is then Running. -/
theorem start_game_resets :
    ∀ (s : GameState) (iw ihh : ℚ),
      (startGame s iw ihh).score = 0 ∧
      (startGame s iw ihh).frameCount = 0 ∧
      (startGame s iw ihh).asteroids = [] ∧
      (startGame s iw ihh).player.trail = [] ∧
      (startGame s iw ihh).player.x = (startGame s iw ihh).width / 2 ∧
      (startGame s iw ihh).player.y = (startGame s iw ihh).height - 100 ∧
      (startGame s iw ihh).mouseX = (startGame s iw ihh).width / 2 ∧
      (startGame s iw ihh).mouseY = (startGame s iw ihh).height - 100 ∧
      sessionState (startGame s iw ihh) = SessionState.Running := by
  intro s iw ihh
  obtain ⟨h1, h2, h3, h4, h5, h6, h7, h8, h9, h10, h11, h12, h13⟩ :=
    startGame_fields s iw ihh
  refine ⟨h1, h2, h3, h4, ?_, ?_, ?_, ?_, ?_⟩
  · rw [h8, h6]
  · rw [h9, h7]
  · rw [h10, h6]
  · rw [h11, h7]
  · simp [sessionState, h5]

/-- **C8**: on every 3rd tick a trail particle is appended with alpha 1 at
`(player.x, player.y + 0.75 · playerRadius)` (the source writes the literal
15, which is `0.75 · 20` for the constant radius 20); every ageing step
moves a particle down by 2 and decreases its alpha by exactly 0.05 (the
newly pushed particle is aged in its creation tick too, per the source's
step order); a particle survives the filter exactly while its aged alpha is
positive, and a fresh particle's alpha stays positive for exactly 20 ageing
steps, i.e. it is removed on the 20th. -/
theorem trail_particle_lifecycle :
    (∀ (fc : ℕ) (px py : ℚ) (t : List Particle), fc % 3 = 0 →
      trailStep fc px py 20 t =
        ageTrail (t ++ [⟨px, py + (3 / 4) * 20, 10, 1⟩])) ∧
    (∀ (fc : ℕ) (px py psize : ℚ) (t : List Particle), fc % 3 ≠ 0 →
      trailStep fc px py psize t = ageTrail t) ∧
    (∀ (t : List Particle) (p : Particle),
      p ∈ ageTrail t ↔ (∃ q ∈ t, ageParticle q = p) ∧ 0 < p.alpha) ∧
    (∀ p : Particle, (ageParticle p).alpha = p.alpha - 1 / 20 ∧
      (ageParticle p).y = p.y + 2 ∧ (ageParticle p).x = p.x) ∧
    (∀ p : Particle, p.alpha = 1 →
      ∀ k : ℕ, 0 < (ageParticle^[k] p).alpha ↔ k < 20) := by
  refine ⟨?_, ?_, ?_, ?_, ?_⟩
  · intro fc px py t hfc
    norm_num [trailStep, hfc]
  · intro fc px py psize t hfc
    simp [trailStep, hfc]
  · intro t p
    simp [ageTrail, List.mem_filter, List.mem_map, decide_eq_true_eq]
  · intro p
    refine ⟨rfl, rfl, rfl⟩
  · intro p hp k
    rw [ageParticle_iterate_alpha, hp]
    constructor
    · intro hlt
      by_contra hk
      push_neg at hk
      have h20 : (20 : ℚ) ≤ (k : ℚ) := by exact_mod_cast hk
      nlinarith
    · intro hk
      have h20 : (k : ℚ) < 20 := by exact_mod_cast hk
      nlinarith

/-- Witness for C8: creation on tick 0 at `(1, 2)` with radius 20, and a
fresh particle's alpha is no longer positive after its 20th ageing. -/
theorem trail_particle_lifecycle_witness :
    (0 % 3 = 0 ∧
      trailStep 0 1 2 20 [] = ageTrail [⟨1, 2 + (3 / 4) * 20, 10, 1⟩]) ∧
    ¬ 0 < (ageParticle^[20] (⟨0, 0, 10, 1⟩ : Particle)).alpha := by
  constructor
  · exact ⟨rfl, trail_particle_lifecycle.1 0 1 2 [] rfl⟩
  · intro hpos
    have h20 : (20 : ℕ) < 20 :=
      (trail_particle_lifecycle.2.2.2.2 (⟨0, 0, 10, 1⟩ : Particle) rfl 20).mp hpos
    omega

/-- **C9** (amended): the core declines to activate exactly when the canvas
or the modal element is absent at initialization; the absence of the other
required elements is *not* guarded — with canvas and modal present but the
play button absent, initialization throws partway with listeners already
attached, and with only e.g. the score element absent, initialization
completes fully (the fault surfaces later at runtime). -/
theorem init_guard_only_canvas_modal :
    (∀ e : Elements, initCore e = InitOutcome.inactive ↔
      (e.canvas = false ∨ e.modal = false)) ∧
    ∀ e : Elements, e.canvas = true → e.modal = true → e.playBtn = false →
      ∃ ls : List String, initCore e = InitOutcome.faulted ls ∧ ls ≠ [] := by
  constructor
  · rintro ⟨m, sb, cb, cv, se, fe, ss, go, pb, rb⟩
    cases cv <;> cases m <;> cases pb <;> cases rb <;> simp [initCore]
  · rintro ⟨m, sb, cb, cv, se, fe, ss, go, pb, rb⟩ hcv hm hpb
    subst hcv
    subst hm
    subst hpb
    cases sb <;> cases cb <;> exact ⟨_, rfl, by simp⟩

/-- Witness for C9: with only the play button absent, initialization faults
after attaching a nonempty set of listeners — a partial initialization the
claim rules out. -/
theorem init_guard_only_canvas_modal_witness :
    ∃ ls : List String, initCore elemsNoPlay = InitOutcome.faulted ls ∧
      ls ≠ [] :=
  init_guard_only_canvas_modal.2 elemsNoPlay rfl rfl rfl

/-- **C9** counterexample: with every element present except the score
display — a required element, dereferenced unconditionally by `update` —
initialization does not decline: it runs to completion and attaches all
listeners, contradicting the claim that the core declines to activate
whenever any required element is absent. -/
theorem init_guard_counterexample :
    ¬ requiredPresent elemsNoScore ∧
    initCore elemsNoScore ≠ InitOutcome.inactive ∧
    initCore elemsNoScore =
      InitOutcome.active ["startBtn.click", "closeBtn.click",
        "canvas.mousemove", "canvas.touchmove", "playBtn.click",
        "restartBtn.click", "window.resize"] := by
  refine ⟨?_, by simp [initCore, elemsNoScore], by simp [initCore, elemsNoScore]⟩
  intro h
  have := h.2.2.1
  simp [elemsNoScore] at this

/-- **C10**: on the very first tick after a start or restart,
`frameCount = 0` satisfies `frameCount % spawnInterval = 0`, so an asteroid
is spawned (and, its speed being far below the fall needed to leave the
surface, survives the tick): the asteroid set is non-empty after one
tick. -/
theorem first_tick_spawns :
    ∀ (s : GameState) (iw ihh : ℚ) (d : Draws),
      0 ≤ d.uSize → d.uSize < 1 → 0 ≤ d.uSpeed → d.uSpeed < 1 → 0 ≤ ihh →
      (startGame s iw ihh).frameCount %
        spawnRate ((startGame s iw ihh).score + 1) = 0 ∧
      (update (startGame s iw ihh) d).asteroids ≠ [] := by
  intro s iw ihh d h1 h2 h3 h4 h5
  obtain ⟨hsc, hfc, hast, htr, hact, hw, hh, hpx, hpy, hmx, hmy, hps, hgo⟩ :=
    startGame_fields s iw ihh
  have hheight : (0 : ℚ) ≤ (startGame s iw ihh).height := by
    rw [hh]
    exact le_min (by norm_num) (by nlinarith)
  constructor
  · simp [hfc, hsc]
  · rw [update_asteroids_eq _ _ hact]
    have hspawn : spawnStep ((startGame s iw ihh).score + 1)
        (startGame s iw ihh).frameCount (startGame s iw ihh).width
        (startGame s iw ihh).asteroids d =
        [spawnAsteroid 1 (startGame s iw ihh).width d] := by
      rw [hsc, hfc, hast]
      simp [spawnStep]
    have hoff : offscreen (startGame s iw ihh).height
        (stepAst (spawnAsteroid 1 (startGame s iw ihh).width d)) = false := by
      simp only [offscreen, stepAst, spawnAsteroid, decide_eq_false_iff_not,
        not_lt]
      push_cast
      nlinarith
    simp only [tickAsteroids, hspawn, processAsteroids, List.reverse_cons,
      List.reverse_nil, List.nil_append, procList, hoff, Bool.false_eq_true,
      if_false]
    split <;> simp [procList]

/-- Witness for C10: starting from `demoState` with a 1000×750 viewport
(hence an 800×600 surface) and all-zero draws, the first tick leaves a
non-empty asteroid set. -/
theorem first_tick_spawns_witness :
    (startGame demoState 1000 750).frameCount %
      spawnRate ((startGame demoState 1000 750).score + 1) = 0 ∧
    (update (startGame demoState 1000 750) zeroDraws).asteroids ≠ [] :=
  first_tick_spawns demoState 1000 750 zeroDraws (by norm_num [zeroDraws])
    (by norm_num [zeroDraws]) (by norm_num [zeroDraws])
    (by norm_num [zeroDraws]) (by norm_num)

end CosmicDodge
